import Mathlib

/-!
Verification of the coverage-analysis logic of the Nigeria network coverage
dashboard (`src/app.py`) against its specification.

The Python program is shallowly embedded: Python floats are modelled as real
numbers, `numpy` vectorised operations over the site table as `List`
operations, and the fallible display pipeline as an `Except`-valued function.
`pandas` values that fail numeric coercion (`to_numeric(errors="coerce")`
produces NaN, then `dropna` removes the row) are modelled as `Option ℝ`
coordinates, `none` standing for a non-numeric/NaN cell, since `ℝ` has no NaN.
-/

set_option autoImplicit false

namespace NigeriaCoverage

open Real

/-- Degree-to-radian conversion, `np.radians` / `math.radians`. -/
noncomputable def rad (x : ℝ) : ℝ := x * π / 180

/-- `np.arctan2 y x` on reals (the signed-zero distinctions of IEEE floats
collapse in `ℝ`; for the program's uses both arguments are `≥ 0`). -/
noncomputable def atan2 (y x : ℝ) : ℝ :=
  if 0 < x then arctan (y / x)
  else if x < 0 then (if 0 ≤ y then arctan (y / x) + π else arctan (y / x) - π)
  else (if 0 < y then π / 2 else if y < 0 then -(π / 2) else 0)

/-- The radicand `a` of `haversine_np` (src/app.py line 98):
`a = sin(dlat/2)**2 + cos(lat) * cos(lats) * sin(dlon/2)**2`, after the four
inputs have been converted to radians. -/
noncomputable def radicand (lat lon lats lons : ℝ) : ℝ :=
  Real.sin ((rad lats - rad lat) / 2) ^ 2 +
    Real.cos (rad lat) * Real.cos (rad lats) * Real.sin ((rad lons - rad lon) / 2) ^ 2

/-- Mean Earth radius used by the program, `R = 6371` (src/app.py line 91). -/
noncomputable def R : ℝ := 6371

/-- `haversine_np` (src/app.py lines 90-99), scalar form: the program
vectorises this over the site table, which the embedding renders by mapping
this function over a `List Site`.  Note the source takes the square roots of
`a` and `1 - a` without clamping. -/
noncomputable def haversine_np (lat lon lats lons : ℝ) : ℝ :=
  2 * R * atan2 (Real.sqrt (radicand lat lon lats lons))
    (Real.sqrt (1 - radicand lat lon lats lons))

/-- A site row after loading: finite numeric coordinates plus the
categorical columns used by the analysis (src/app.py columns `Latitude`,
`Longitude`, `Network_Operator`, `Network_Generation`, `State`). -/
structure Site where
  latitude : ℝ
  longitude : ℝ
  operator : String
  technology : String
  state : String

/-- The run-analysis filter (src/app.py lines 120-123):
`df["distance_km"] = haversine_np(lat, lon, ...)`;
`nearby = df[df["distance_km"] <= radius_km]`. -/
noncomputable def classify (lat lon r : ℝ) (df : List Site) : List Site :=
  df.filter (fun s => decide (haversine_np lat lon s.latitude s.longitude ≤ r))

/-! ### Basic facts about the radicand and the haversine distance -/

/-- `sin (x/2) ^ 2 = (1 - cos x) / 2` (half-angle). -/
lemma sin_sq_half (x : ℝ) : Real.sin (x / 2) ^ 2 = (1 - Real.cos x) / 2 := by
  have h2 : Real.cos (2 * (x / 2)) = 2 * Real.cos (x / 2) ^ 2 - 1 := Real.cos_two_mul _
  have hpyth : Real.sin (x / 2) ^ 2 + Real.cos (x / 2) ^ 2 = 1 := Real.sin_sq_add_cos_sq _
  have hx : 2 * (x / 2) = x := by ring
  rw [hx] at h2
  linarith

lemma radicand_nonneg (lat lon lats lons : ℝ) : 0 ≤ radicand lat lon lats lons := by
  unfold radicand
  set x := rad lat with hx
  set y := rad lats with hy
  set e := (rad lons - rad lon) / 2 with he
  have hs : Real.sin ((y - x) / 2) ^ 2 = (1 - Real.cos (y - x)) / 2 := sin_sq_half _
  have hsub : Real.cos (y - x) = Real.cos y * Real.cos x + Real.sin y * Real.sin x :=
    Real.cos_sub _ _
  have hadd : Real.cos (x + y) = Real.cos x * Real.cos y - Real.sin x * Real.sin y :=
    Real.cos_add _ _
  have hb : -1 ≤ Real.cos (x + y) := Real.neg_one_le_cos _
  have hc1 : Real.cos (y - x) ≤ 1 := Real.cos_le_one _
  have ht0 : 0 ≤ Real.sin e ^ 2 := sq_nonneg _
  have ht1 : Real.sin e ^ 2 ≤ 1 := Real.sin_sq_le_one _
  rcases le_or_lt 0 (Real.cos x * Real.cos y) with hC | hC
  · have : 0 ≤ Real.cos x * Real.cos y * Real.sin e ^ 2 := mul_nonneg hC ht0
    nlinarith
  · have hCt : Real.cos x * Real.cos y * 1 ≤ Real.cos x * Real.cos y * Real.sin e ^ 2 := by
      apply mul_le_mul_of_nonpos_left ht1 (le_of_lt hC)
    nlinarith

lemma radicand_le_one (lat lon lats lons : ℝ) : radicand lat lon lats lons ≤ 1 := by
  unfold radicand
  set x := rad lat with hx
  set y := rad lats with hy
  set e := (rad lons - rad lon) / 2 with he
  have hs : Real.sin ((y - x) / 2) ^ 2 = (1 - Real.cos (y - x)) / 2 := sin_sq_half _
  have hsub : Real.cos (y - x) = Real.cos y * Real.cos x + Real.sin y * Real.sin x :=
    Real.cos_sub _ _
  have hadd : Real.cos (x + y) = Real.cos x * Real.cos y - Real.sin x * Real.sin y :=
    Real.cos_add _ _
  have hb : Real.cos (x + y) ≤ 1 := Real.cos_le_one _
  have hc1 : -1 ≤ Real.cos (y - x) := Real.neg_one_le_cos _
  have ht0 : 0 ≤ Real.sin e ^ 2 := sq_nonneg _
  have ht1 : Real.sin e ^ 2 ≤ 1 := Real.sin_sq_le_one _
  rcases le_or_lt 0 (Real.cos x * Real.cos y) with hC | hC
  · have hCt : Real.cos x * Real.cos y * Real.sin e ^ 2 ≤ Real.cos x * Real.cos y * 1 :=
      mul_le_mul_of_nonneg_left ht1 hC
    nlinarith
  · have : Real.cos x * Real.cos y * Real.sin e ^ 2 ≤ 0 :=
      mul_nonpos_of_nonpos_of_nonneg (le_of_lt hC) ht0
    nlinarith

/-- The program's `atan2`-form haversine coincides with the textbook
`arcsin`-form: `2 R atan2 (√a) (√(1-a)) = 2 R arcsin (√a)` for the radicand
`a ∈ [0, 1]`. -/
lemma haversine_eq_arcsin (lat lon lats lons : ℝ) :
    haversine_np lat lon lats lons =
      2 * R * Real.arcsin (Real.sqrt (radicand lat lon lats lons)) := by
  unfold haversine_np
  set a := radicand lat lon lats lons with ha
  have h0 : 0 ≤ a := radicand_nonneg lat lon lats lons
  have h1 : a ≤ 1 := radicand_le_one lat lon lats lons
  rcases eq_or_lt_of_le h1 with heq | hlt
  · -- a = 1 : atan2 1 0 = π/2 = arcsin 1
    rw [heq] at *
    have hs1 : Real.sqrt (1 : ℝ) = 1 := Real.sqrt_one
    have hs0 : Real.sqrt (1 - 1 : ℝ) = 0 := by norm_num
    rw [hs1, hs0]
    unfold atan2
    rw [if_neg (lt_irrefl 0), if_neg (lt_irrefl 0), if_pos one_pos, Real.arcsin_one]
  · -- a < 1 : positive second argument, use arctan_eq_arcsin
    have hpos : 0 < Real.sqrt (1 - a) := Real.sqrt_pos.2 (by linarith)
    unfold atan2
    rw [if_pos hpos]
    congr 1
    set z := Real.sqrt a / Real.sqrt (1 - a) with hz
    rw [Real.arctan_eq_arcsin]
    congr 1
    have hzz : z ^ 2 = a / (1 - a) := by
      rw [hz, div_pow, Real.sq_sqrt h0, Real.sq_sqrt (by linarith : (0:ℝ) ≤ 1 - a)]
    have h1a : (1 : ℝ) - a ≠ 0 := by linarith
    have honez : 1 + z ^ 2 = 1 / (1 - a) := by
      rw [hzz]; field_simp
    rw [honez]
    have hsq : Real.sqrt (1 / (1 - a)) = 1 / Real.sqrt (1 - a) := by
      rw [one_div, one_div, Real.sqrt_inv]
    rw [hsq, hz]
    field_simp

lemma R_pos : (0 : ℝ) < R := by unfold R; norm_num

/-- The haversine distance is non-negative. -/
lemma haversine_nonneg (lat lon lats lons : ℝ) : 0 ≤ haversine_np lat lon lats lons := by
  rw [haversine_eq_arcsin]
  have : 0 ≤ Real.arcsin (Real.sqrt (radicand lat lon lats lons)) :=
    Real.arcsin_nonneg.2 (Real.sqrt_nonneg _)
  have := R_pos
  nlinarith

/-- Global upper bound: the haversine distance is at most `R * π`. -/
lemma haversine_le (lat lon lats lons : ℝ) : haversine_np lat lon lats lons ≤ R * π := by
  rw [haversine_eq_arcsin]
  have h := Real.arcsin_le_pi_div_two (Real.sqrt (radicand lat lon lats lons))
  have hR := R_pos
  nlinarith [mul_le_mul_of_nonneg_left h (le_of_lt hR)]

/-- Lower bound used for concrete estimates: `2 R √a ≤ haversine`. -/
lemma haversine_ge_sqrt (lat lon lats lons : ℝ) :
    2 * R * Real.sqrt (radicand lat lon lats lons) ≤ haversine_np lat lon lats lons := by
  rw [haversine_eq_arcsin]
  set s := Real.sqrt (radicand lat lon lats lons) with hs
  have h0 : 0 ≤ s := Real.sqrt_nonneg _
  have h1 : s ≤ 1 := by
    rw [hs]
    rw [Real.sqrt_le_left (by norm_num : (0:ℝ) ≤ 1)]
    simpa using radicand_le_one lat lon lats lons
  have harc : s ≤ Real.arcsin s := by
    have hrec : Real.sin (Real.arcsin s) = s := Real.sin_arcsin (by linarith) h1
    have hnn : 0 ≤ Real.arcsin s := Real.arcsin_nonneg.2 h0
    have := Real.sin_le hnn
    rw [hrec] at this
    exact this
  have := R_pos
  nlinarith

/-- The haversine distance of a point to itself is `0`. -/
lemma haversine_self (lat lon : ℝ) : haversine_np lat lon lat lon = 0 := by
  have hr : radicand lat lon lat lon = 0 := by
    unfold radicand
    simp
  unfold haversine_np
  rw [hr]
  have h0 : Real.sqrt (0 : ℝ) = 0 := Real.sqrt_zero
  have h1 : Real.sqrt (1 - 0 : ℝ) = 1 := by norm_num
  rw [h0, h1]
  unfold atan2
  rw [if_pos one_pos]
  simp [Real.arctan_zero]

/-- The radicand is symmetric in its two points. -/
lemma radicand_comm (lat lon lats lons : ℝ) :
    radicand lat lon lats lons = radicand lats lons lat lon := by
  unfold radicand
  have h1 : rad lat - rad lats = -(rad lats - rad lat) := by ring
  have h2 : rad lon - rad lons = -(rad lons - rad lon) := by ring
  rw [h1, h2]
  rw [neg_div, Real.sin_neg, neg_div, Real.sin_neg]
  ring

/-- The haversine distance is symmetric. -/
lemma haversine_comm (lat lon lats lons : ℝ) :
    haversine_np lat lon lats lons = haversine_np lats lons lat lon := by
  unfold haversine_np
  rw [radicand_comm]

/-! ### The gap scan (src/app.py lines 248-271) -/

/-- The gap-scan threshold `MIN_SIGNAL_KM = 8` (src/app.py line 251).  It is a
fixed constant, not derived from the query radius. -/
noncomputable def MIN_SIGNAL_KM : ℝ := 8

/-- Python `range(a, b, step)` for a positive step, as a list of integers. -/
def pythonRange (a b step : ℤ) : List ℤ :=
  (List.range ((b - a + step - 1) / step).toNat).map (fun i => a + step * (i : ℤ))

/-- The grid-cell centres visited by the nested loops of the gap scan
(src/app.py lines 253-256): for `dx` and `dy` in `range(-radius_km,
radius_km+1, 15)`, the centre `(lat + dx/111, lon + dy/(111*cos(radians(lat))))`
(the `cos` is taken at the query latitude). -/
noncomputable def gridCells (lat lon : ℝ) (radius_km : ℤ) : List (ℝ × ℝ) :=
  (pythonRange (-radius_km) (radius_km + 1) 15).flatMap (fun dx =>
    (pythonRange (-radius_km) (radius_km + 1) 15).map (fun dy : ℤ =>
      (lat + (dx : ℝ) / 111, lon + (dy : ℝ) / (111 * Real.cos (rad lat)))))

/-- `distances.min()` for the vector of distances from the cell centre to the
sites (`0` for an empty table; the caller skips that case, mirroring the
`if len(distances) == 0: continue` guard). -/
noncomputable def minSiteDist (glat glon : ℝ) (df : List Site) : ℝ :=
  match df.map (fun s => haversine_np glat glon s.latitude s.longitude) with
  | [] => 0
  | d :: ds => ds.foldl min d

/-- The per-cell keep condition of the gap scan (src/app.py lines 257-260):
skip when the distance vector is empty, keep when `distances.min() >
MIN_SIGNAL_KM`. -/
noncomputable def gapKeep (glat glon : ℝ) (df : List Site) : Bool :=
  !df.isEmpty && decide (minSiteDist glat glon df > MIN_SIGNAL_KM)

/-- The `uncovered` list accumulated by the gap scan (src/app.py lines
252-260), in loop order. -/
noncomputable def uncovered (lat lon : ℝ) (radius_km : ℤ) (df : List Site) :
    List (ℝ × ℝ) :=
  (gridCells lat lon radius_km).filter (fun c => gapKeep c.1 c.2 df)

/-- The deployment recommendation text chosen from the query radius
(src/app.py lines 266-268). -/
def recDeployment (radius_km : ℤ) : String :=
  if radius_km ≤ 15 then "4G (Urban high-capacity)"
  else if radius_km ≤ 40 then "3G + 4G (Suburban)"
  else "2G + 3G (Rural)"

/-- The gap recommendation block (src/app.py lines 264-271): nothing is
rendered when `uncovered` is empty; otherwise the suggested tower location is
`uncovered[0]`, with a radius-based deployment text. -/
def gapRecommend (unc : List (ℝ × ℝ)) (radius_km : ℤ) :
    Option ((ℝ × ℝ) × String) :=
  match unc with
  | [] => none
  | c :: _ => some (c, recDeployment radius_km)

/-! ### The no-coverage branch (src/app.py lines 140-169) -/

/-- First-occurrence minimiser of the distance to the query point over
`s :: rest`, i.e. `df.iloc[all_distances.argmin()]` (src/app.py lines
145-147; `np.argmin` returns the first index attaining the minimum, hence the
strict `<` when folding). -/
noncomputable def nearestSite (lat lon : ℝ) (s : Site) (rest : List Site) : Site :=
  rest.foldl (fun best t =>
    if haversine_np lat lon t.latitude t.longitude <
        haversine_np lat lon best.latitude best.longitude then t else best) s

/-- The user-visible outcome of one analysis run: either the no-coverage
branch (nearest site, its distance, the suggested midpoint tower location and
the copied operator/technology, src/app.py lines 140-169) or the coverage
branch carrying the retained rows (lines 171 onward). -/
inductive Outcome where
  | noCoverage (nearest : Site) (nearestDist rlat rlon : ℝ)
      (recOperator recTechnology : String)
  | coverage (nearby : List Site)

/-- The analysis/display pipeline on the retained set (src/app.py lines
120-171).  When no site is retained the program looks up the nearest site via
`all_distances.argmin()`; on an empty site table `np.argmin` raises, which the
embedding renders as `Except.error`. -/
noncomputable def analyze (lat lon r : ℝ) (df : List Site) :
    Except String Outcome :=
  let nearby := classify lat lon r df
  if nearby.isEmpty then
    match df with
    | [] => Except.error "attempt to get argmin of an empty sequence"
    | s :: rest =>
      let ns := nearestSite lat lon s rest
      Except.ok (Outcome.noCoverage ns
        (haversine_np lat lon ns.latitude ns.longitude)
        ((lat + ns.latitude) / 2) ((lon + ns.longitude) / 2)
        ns.operator ns.technology)
  else Except.ok (Outcome.coverage nearby)

/-! ### CSV loading (src/app.py lines 22-60) -/

/-- A raw CSV row before coercion.  The coordinate cells are `Option ℝ`:
`none` models a value that `pd.to_numeric(..., errors="coerce")` turns into
NaN (non-numeric text or a missing cell); `ℝ` has no NaN, so failure of the
coercion is the `none` constructor. -/
structure RawRow where
  latitude : Option ℝ
  longitude : Option ℝ
  operator : String
  technology : String
  state : String

/-- `true` when `pat` occurs as a substring of `s` (the `.*PAT.*` regex
patterns of src/app.py lines 37-42 and 46-55 applied to a single cell). -/
def hasSub (s pat : String) : Bool := (s.splitOn pat).length > 1

/-- The `.*9.*MOBILE.*` pattern: some `"MOBILE"` occurs after some `"9"`
(`"MOBILE"` contains no `"9"`, so it lies inside one chunk of `splitOn "9"`). -/
def has9Mobile (s : String) : Bool :=
  ((s.splitOn "9").drop 1).any (fun t => hasSub t "MOBILE")

/-- Operator normalisation (src/app.py lines 36-42): upper-case, then the
regex-replacement dictionary.  The replacements are applied sequentially by
pandas, but no replacement string matches a later pattern, so the dictionary
behaves as a first-match conditional. -/
def normOperator (s : String) : String :=
  let u := s.toUpper
  if hasSub u "MTN" then "MTN Nigeria"
  else if hasSub u "AIRTEL" then "Airtel Nigeria"
  else if hasSub u "GLO" then "Globacom"
  else if has9Mobile u then "9mobile"
  else u

/-- Technology normalisation (src/app.py lines 45-55), same first-match
reading: the replacement strings "4G"/"3G"/"2G" only re-match their own
pattern, which is the identity. -/
def normTechnology (s : String) : String :=
  let u := s.toUpper
  if hasSub u "LTE" then "4G"
  else if hasSub u "4G" then "4G"
  else if hasSub u "UMTS" then "3G"
  else if hasSub u "HSPA" then "3G"
  else if hasSub u "3G" then "3G"
  else if hasSub u "EDGE" then "2G"
  else if hasSub u "GSM" then "2G"
  else if hasSub u "2G" then "2G"
  else u

/-- `load_csv` row pipeline (src/app.py lines 31-58): numeric-coerce the two
coordinate columns, drop any row in which either failed (`dropna` on the NaN
produced by the coercion), and normalise the categorical columns.  Only rows
with both coordinates numeric survive. -/
def load_csv (rows : List RawRow) : List Site :=
  rows.filterMap (fun row =>
    match row.latitude, row.longitude with
    | some la, some lo =>
      some ⟨la, lo, normOperator row.operator, normTechnology row.technology, row.state⟩
    | _, _ => none)

/-! ### Spec-modelled reference definitions (for refinement claims) -/

/-- Modelled from the spec: "uses the haversine formula on a mean Earth
radius of 6371 km" — the textbook haversine in its `asin` form,
`2 R asin(sqrt(sin^2(dlat/2) + cos lat1 cos lat2 sin^2(dlon/2)))` with
`R = 6371`, inputs in degrees. -/
noncomputable def haversineFormulaSpec (lat lon lats lons : ℝ) : ℝ :=
  2 * 6371 * Real.arcsin (Real.sqrt
    (Real.sin ((rad lats - rad lat) / 2) ^ 2 +
      Real.cos (rad lat) * Real.cos (rad lats) *
        Real.sin ((rad lons - rad lon) / 2) ^ 2))

/-- Modelled from the spec: "standard haversine with clamped argument to
`asin`/`atan2` square-root term ... (clamp the radicand to [0,1])" — the same
computation as `haversine_np` but with the radicand clamped before the square
roots. -/
noncomputable def haversineClampedSpec (lat lon lats lons : ℝ) : ℝ :=
  let a := max 0 (min 1 (radicand lat lon lats lons))
  2 * R * atan2 (Real.sqrt a) (Real.sqrt (1 - a))

/-! ### Further helper lemmas -/

/-- Folding `min` over a list stays above `c` iff every element and the seed
do. -/
lemma foldl_min_gt (c : ℝ) (l : List ℝ) (d : ℝ) :
    l.foldl min d > c ↔ d > c ∧ ∀ x ∈ l, x > c := by
  induction l generalizing d with
  | nil => simp
  | cons x xs ih =>
    rw [List.foldl_cons, ih]
    simp only [gt_iff_lt, lt_min_iff, List.forall_mem_cons]
    tauto

/-- The gap-scan keep condition holds iff the site table is non-empty and
every site is farther than the threshold from the cell centre. -/
lemma gapKeep_iff (glat glon : ℝ) (df : List Site) :
    gapKeep glat glon df = true ↔
      df ≠ [] ∧ ∀ s ∈ df,
        haversine_np glat glon s.latitude s.longitude > MIN_SIGNAL_KM := by
  cases df with
  | nil => simp [gapKeep]
  | cons s rest =>
    unfold gapKeep minSiteDist
    rw [List.map_cons]
    simp only [List.isEmpty_cons, Bool.not_false, Bool.true_and,
      decide_eq_true_eq, foldl_min_gt, List.forall_mem_map, List.forall_mem_cons,
      ne_eq, reduceCtorEq, not_false_eq_true, true_and]

/-- `nearestSite` returns a member of the table attaining the minimal
distance to the query point (the first such member, as `np.argmin` does). -/
lemma nearestSite_spec (lat lon : ℝ) (s : Site) (rest : List Site) :
    nearestSite lat lon s rest ∈ s :: rest ∧
    ∀ t ∈ s :: rest,
      haversine_np lat lon (nearestSite lat lon s rest).latitude
          (nearestSite lat lon s rest).longitude ≤
        haversine_np lat lon t.latitude t.longitude := by
  induction rest generalizing s with
  | nil =>
    refine ⟨by simp [nearestSite], ?_⟩
    intro t ht
    rw [List.mem_singleton] at ht
    subst ht
    simp [nearestSite]
  | cons x xs ih =>
    have hstep : nearestSite lat lon s (x :: xs) =
        nearestSite lat lon
          (if haversine_np lat lon x.latitude x.longitude <
              haversine_np lat lon s.latitude s.longitude then x else s) xs := rfl
    obtain ⟨hmem, hmin⟩ := ih
      (if haversine_np lat lon x.latitude x.longitude <
          haversine_np lat lon s.latitude s.longitude then x else s)
    by_cases hc : haversine_np lat lon x.latitude x.longitude <
        haversine_np lat lon s.latitude s.longitude
    · rw [if_pos hc] at hmem hmin
      rw [hstep, if_pos hc]
      constructor
      · rcases List.mem_cons.1 hmem with h | h
        · exact List.mem_cons_of_mem _ (by rw [h]; exact List.mem_cons_self _ _)
        · exact List.mem_cons_of_mem _ (List.mem_cons_of_mem _ h)
      · intro t ht
        rcases List.mem_cons.1 ht with h | h
        · rw [h]
          exact le_trans (hmin x (List.mem_cons_self _ _)) (le_of_lt hc)
        · rcases List.mem_cons.1 h with h' | h'
          · rw [h']
            exact hmin x (List.mem_cons_self _ _)
          · exact hmin t (List.mem_cons_of_mem _ h')
    · rw [if_neg hc] at hmem hmin
      rw [hstep, if_neg hc]
      constructor
      · rcases List.mem_cons.1 hmem with h | h
        · rw [h]; exact List.mem_cons_self _ _
        · exact List.mem_cons_of_mem _ (List.mem_cons_of_mem _ h)
      · intro t ht
        rcases List.mem_cons.1 ht with h | h
        · rw [h]
          exact hmin s (List.mem_cons_self _ _)
        · rcases List.mem_cons.1 h with h' | h'
          · rw [h']
            exact le_trans (hmin s (List.mem_cons_self _ _)) (not_lt.1 hc)
          · exact hmin t (List.mem_cons_of_mem _ h')

/-! ### Concrete fixtures used by witnesses and counterexamples -/

/-- A site at the query origin used in concrete scenarios. -/
def site0 : Site := ⟨0, 0, "MTN Nigeria", "4G", "Lagos"⟩

/-- A site one degree of latitude north of the origin. -/
def siteA : Site := ⟨1, 0, "Airtel Nigeria", "3G", "Kano"⟩

/-- With radius `-1`, the site at the origin (distance `0`) is not retained. -/
lemma classify_site0_empty : classify 0 0 (-1) [site0] = [] := by
  unfold classify
  rw [List.filter_cons, List.filter_nil]
  have h : decide (haversine_np 0 0 site0.latitude site0.longitude ≤ (-1:ℝ)) = false := by
    rw [decide_eq_false_iff_not]
    intro hle
    have h0 : haversine_np 0 0 site0.latitude site0.longitude = 0 := haversine_self 0 0
    rw [h0] at hle
    norm_num at hle
  rw [h]
  simp

/-- The radicand between the origin and the point `(1, 0)` is positive. -/
lemma radicand_01_pos : 0 < radicand 0 0 1 0 := by
  unfold radicand rad
  have e1 : ((1:ℝ) * π / 180 - 0 * π / 180) / 2 = π / 360 := by ring
  have e2 : ((0:ℝ) * π / 180 - 0 * π / 180) / 2 = 0 := by ring
  rw [e1, e2, Real.sin_zero]
  have hsin : 0 < Real.sin (π / 360) := by
    apply Real.sin_pos_of_pos_of_lt_pi
    · positivity
    · nlinarith [Real.pi_pos]
  nlinarith [hsin]

/-- The distance from the origin to `(1, 0)` is positive. -/
lemma haversine_01_pos : 0 < haversine_np 0 0 1 0 := by
  rw [haversine_eq_arcsin]
  have h1 := Real.sqrt_pos.2 radicand_01_pos
  have h2 := Real.arcsin_pos.2 h1
  have := R_pos
  nlinarith

/-- The distance from the origin to `(1, 0)` is below `20100` km. -/
lemma haversine_01_le : haversine_np 0 0 1 0 ≤ 20100 := by
  have h := haversine_le 0 0 1 0
  have hπ : π < 3.15 := Real.pi_lt_d2
  have hR : R = (6371 : ℝ) := rfl
  rw [hR] at h
  nlinarith

/-- At radius `20100` both fixture sites are retained, in input order. -/
lemma classify_C6_eval : classify 0 0 20100 [siteA, site0] = [siteA, site0] := by
  unfold classify
  rw [List.filter_cons, List.filter_cons, List.filter_nil]
  have hA : decide (haversine_np 0 0 siteA.latitude siteA.longitude ≤ (20100:ℝ)) = true := by
    rw [decide_eq_true_eq]
    have h : haversine_np 0 0 siteA.latitude siteA.longitude = haversine_np 0 0 1 0 := rfl
    rw [h]
    exact haversine_01_le
  have hB : decide (haversine_np 0 0 site0.latitude site0.longitude ≤ (20100:ℝ)) = true := by
    rw [decide_eq_true_eq]
    have h0 : haversine_np 0 0 site0.latitude site0.longitude = 0 := haversine_self 0 0
    rw [h0]
    norm_num
  rw [hA, hB]
  simp

/-! ### Claim theorems -/

/-- C1: for every query origin and site coordinates, the computed distance
equals the haversine great-circle formula (textbook `asin` form) at mean
Earth radius 6371 km, and the result is non-negative. -/
theorem claim_C1 (lat lon lats lons : ℝ) :
    haversine_np lat lon lats lons = haversineFormulaSpec lat lon lats lons ∧
    0 ≤ haversine_np lat lon lats lons := by
  constructor
  · rw [haversine_eq_arcsin]
    unfold haversineFormulaSpec radicand R
    rfl
  · exact haversine_nonneg lat lon lats lons

/-- C5: the distance function is symmetric, and the distance from any point
to itself is zero. -/
theorem claim_C5 (lat lon lats lons : ℝ) :
    haversine_np lat lon lats lons = haversine_np lats lons lat lon ∧
    haversine_np lat lon lat lon = 0 :=
  ⟨haversine_comm lat lon lats lons, haversine_self lat lon⟩

/-- C7: in the real-number semantics of the embedding, the radicand of
`haversine_np` always lies in `[0, 1]`, so both square-root arguments are
non-negative (no domain error), and the implementation agrees everywhere with
the spec's clamped variant (clamping the radicand to `[0,1]` is the
identity). -/
theorem claim_C7 (lat lon lats lons : ℝ) :
    (0 ≤ radicand lat lon lats lons ∧ radicand lat lon lats lons ≤ 1) ∧
    haversine_np lat lon lats lons = haversineClampedSpec lat lon lats lons := by
  have h0 := radicand_nonneg lat lon lats lons
  have h1 := radicand_le_one lat lon lats lons
  refine ⟨⟨h0, h1⟩, ?_⟩
  unfold haversineClampedSpec haversine_np
  rw [min_eq_right h1, max_eq_right h0]

/-- C2: the retained set of the analysis is exactly the set of sites within
`radius_km` of the origin, and re-filtering the retained set at the same
radius is the identity. -/
theorem claim_C2 (lat lon r : ℝ) (df : List Site) :
    (∀ s : Site, s ∈ classify lat lon r df ↔
      s ∈ df ∧ haversine_np lat lon s.latitude s.longitude ≤ r) ∧
    classify lat lon r (classify lat lon r df) = classify lat lon r df := by
  constructor
  · intro s
    unfold classify
    rw [List.mem_filter, decide_eq_true_eq]
  · unfold classify
    rw [List.filter_filter]
    simp only [Bool.and_self]

/-- C3: a grid cell centre is emitted by the gap scan iff it lies on the
scanned grid, the site table is non-empty, and every site is farther than
`MIN_SIGNAL_KM` (= 8 km, a constant independent of the query radius) from the
cell centre. -/
theorem claim_C3 (lat lon : ℝ) (radius_km : ℤ) (df : List Site) (c : ℝ × ℝ) :
    (c ∈ uncovered lat lon radius_km df ↔
      c ∈ gridCells lat lon radius_km ∧ df ≠ [] ∧
        ∀ s ∈ df, haversine_np c.1 c.2 s.latitude s.longitude > MIN_SIGNAL_KM) ∧
    MIN_SIGNAL_KM = 8 := by
  constructor
  · unfold uncovered
    rw [List.mem_filter, gapKeep_iff]
  · rfl

/-- C9: a site record appears in the loaded collection iff it comes from a
raw row both of whose coordinate cells coerced to numbers; rows with a failed
coercion (NaN) are dropped, so every indexed site has finite numeric
coordinates. -/
theorem claim_C9 (rows : List RawRow) (s : Site) :
    s ∈ load_csv rows ↔
      ∃ row ∈ rows, row.latitude = some s.latitude ∧
        row.longitude = some s.longitude ∧
        s.operator = normOperator row.operator ∧
        s.technology = normTechnology row.technology ∧
        s.state = row.state := by
  unfold load_csv
  rw [List.mem_filterMap]
  constructor
  · rintro ⟨row, hrow, hmatch⟩
    cases hla : row.latitude with
    | none => rw [hla] at hmatch; exact absurd hmatch (by simp)
    | some la =>
      cases hlo : row.longitude with
      | none => rw [hla, hlo] at hmatch; exact absurd hmatch (by simp)
      | some lo =>
        rw [hla, hlo] at hmatch
        simp only [Option.some.injEq] at hmatch
        refine ⟨row, hrow, ?_⟩
        rw [← hmatch]
        exact ⟨hla, hlo, rfl, rfl, rfl⟩
  · rintro ⟨row, hrow, hla, hlo, hop, htech, hst⟩
    refine ⟨row, hrow, ?_⟩
    rw [hla, hlo]
    cases s
    simp only [Option.some.injEq]
    simp_all

/-- C10: in the no-coverage case over a non-empty site table, the branch
returns (without error) the nearest site, the midpoint of the query point and
the nearest site as the suggested tower location, and the operator and
technology copied from that nearest site. -/
theorem claim_C10 (lat lon r : ℝ) (s : Site) (rest : List Site)
    (h : classify lat lon r (s :: rest) = []) :
    ∃ ns : Site, ns ∈ s :: rest ∧
      (∀ t ∈ s :: rest,
        haversine_np lat lon ns.latitude ns.longitude ≤
          haversine_np lat lon t.latitude t.longitude) ∧
      analyze lat lon r (s :: rest) = Except.ok (Outcome.noCoverage ns
        (haversine_np lat lon ns.latitude ns.longitude)
        ((lat + ns.latitude) / 2) ((lon + ns.longitude) / 2)
        ns.operator ns.technology) := by
  obtain ⟨hmem, hmin⟩ := nearestSite_spec lat lon s rest
  refine ⟨nearestSite lat lon s rest, hmem, hmin, ?_⟩
  simp [analyze, h]

/-- C10 witness: concrete no-coverage run over one site. -/
theorem claim_C10_witness :
    classify 0 0 (-1) [site0] = [] ∧
    ∃ ns : Site, ns ∈ [site0] ∧
      (∀ t ∈ [site0],
        haversine_np 0 0 ns.latitude ns.longitude ≤
          haversine_np 0 0 t.latitude t.longitude) ∧
      analyze 0 0 (-1) [site0] = Except.ok (Outcome.noCoverage ns
        (haversine_np 0 0 ns.latitude ns.longitude)
        ((0 + ns.latitude) / 2) ((0 + ns.longitude) / 2)
        ns.operator ns.technology) :=
  ⟨classify_site0_empty, claim_C10 0 0 (-1) site0 [] classify_site0_empty⟩

/-- C4 (amended): over a NON-EMPTY site table, an empty retained set yields
the explicit no-coverage outcome with nearest-site information and no
exception; and a gap scan that found no gaps renders nothing rather than an
error.  (On an empty site table the nearest-site lookup raises, see the
counterexample.) -/
theorem claim_C4 (lat lon r : ℝ) (df : List Site) (radius_km : ℤ)
    (hne : df ≠ []) (h : classify lat lon r df = []) :
    (∃ ns nd rlat rlon op tech, analyze lat lon r df =
        Except.ok (Outcome.noCoverage ns nd rlat rlon op tech)) ∧
    gapRecommend [] radius_km = none := by
  constructor
  · cases df with
    | nil => exact absurd rfl hne
    | cons s rest =>
      refine ⟨nearestSite lat lon s rest,
        haversine_np lat lon (nearestSite lat lon s rest).latitude
          (nearestSite lat lon s rest).longitude,
        (lat + (nearestSite lat lon s rest).latitude) / 2,
        (lon + (nearestSite lat lon s rest).longitude) / 2,
        (nearestSite lat lon s rest).operator,
        (nearestSite lat lon s rest).technology, ?_⟩
      simp [analyze, h]
  · rfl

/-- C4 counterexample: with an empty site table the retained set is empty,
and the program raises (`np.argmin` of an empty sequence) instead of
producing a no-coverage outcome. -/
theorem claim_C4_counterexample :
    analyze 0 0 30 ([] : List Site) =
      Except.error "attempt to get argmin of an empty sequence" := by
  simp [analyze, classify]

/-- C4 witness: concrete non-empty no-coverage run. -/
theorem claim_C4_witness :
    (([site0] : List Site) ≠ []) ∧ classify 0 0 (-1) [site0] = [] ∧
    ((∃ ns nd rlat rlon op tech, analyze 0 0 (-1) [site0] =
        Except.ok (Outcome.noCoverage ns nd rlat rlon op tech)) ∧
      gapRecommend [] 30 = none) := by
  have hne : ([site0] : List Site) ≠ [] := by simp
  exact ⟨hne, classify_site0_empty,
    claim_C4 0 0 (-1) [site0] 30 hne classify_site0_empty⟩

/-- C6 (amended): the coverage result is the retained sites in the canonical
order inherited from the input site table (the filter emits an
order-preserving sublist); it is deterministic as a pure function of the
query and the sites, but it is NOT sorted by ascending distance (see the
counterexample). -/
theorem claim_C6 (lat lon r : ℝ) (df : List Site) :
    List.Sublist (classify lat lon r df) df :=
  List.filter_sublist df

/-- C6 counterexample: a far site listed before a near site is returned in
input order, so the mapped distance column of the result is not sorted
ascending. -/
theorem claim_C6_counterexample :
    ¬ List.Sorted (· ≤ ·) ((classify 0 0 20100 [siteA, site0]).map
      (fun s => haversine_np 0 0 s.latitude s.longitude)) := by
  intro hsort
  rw [classify_C6_eval, List.map_cons, List.map_cons, List.map_nil] at hsort
  have h := List.rel_of_sorted_cons hsort _ (List.mem_cons_self _ _)
  have h0 : haversine_np 0 0 site0.latitude site0.longitude = 0 := haversine_self 0 0
  have hA : haversine_np 0 0 siteA.latitude siteA.longitude = haversine_np 0 0 1 0 := rfl
  rw [h0, hA] at h
  exact absurd h (not_le.2 haversine_01_pos)

/-! ### Gap-scan counterexample development (claim C8) -/

/-- `√(radicand) ≤ 1`. -/
lemma sqrt_radicand_le_one (lat lon lats lons : ℝ) :
    Real.sqrt (radicand lat lon lats lons) ≤ 1 := by
  rw [Real.sqrt_le_left (by norm_num : (0:ℝ) ≤ 1)]
  simpa using radicand_le_one lat lon lats lons

/-- The haversine distance is strictly monotone in the radicand. -/
lemma haversine_lt_of_radicand_lt (lat1 lon1 lats1 lons1 lat2 lon2 lats2 lons2 : ℝ)
    (h : radicand lat1 lon1 lats1 lons1 < radicand lat2 lon2 lats2 lons2) :
    haversine_np lat1 lon1 lats1 lons1 < haversine_np lat2 lon2 lats2 lons2 := by
  rw [haversine_eq_arcsin, haversine_eq_arcsin]
  have hs : Real.sqrt (radicand lat1 lon1 lats1 lons1) <
      Real.sqrt (radicand lat2 lon2 lats2 lons2) :=
    Real.sqrt_lt_sqrt (radicand_nonneg _ _ _ _) h
  have hmem1 : Real.sqrt (radicand lat1 lon1 lats1 lons1) ∈ Set.Icc (-1:ℝ) 1 :=
    Set.mem_Icc.mpr ⟨le_trans (by norm_num) (Real.sqrt_nonneg _),
      sqrt_radicand_le_one _ _ _ _⟩
  have hmem2 : Real.sqrt (radicand lat2 lon2 lats2 lons2) ∈ Set.Icc (-1:ℝ) 1 :=
    Set.mem_Icc.mpr ⟨le_trans (by norm_num) (Real.sqrt_nonneg _),
      sqrt_radicand_le_one _ _ _ _⟩
  have harc := Real.strictMonoOn_arcsin hmem1 hmem2 hs
  have := R_pos
  nlinarith

/-- A site due west of the first row of the gap-scan grid for the query
`(0, 0)` with radius 8: same latitude as the row, longitude `-1`. -/
noncomputable def siteC8 : Site := ⟨-8/111, -1, "Globacom", "2G", "Niger"⟩

lemma rad_zero : rad 0 = 0 := by unfold rad; ring

/-- The scan grid for radius 8 at the origin: `range(-8, 9, 15) = [-8, 7]`,
four cells in loop order. -/
lemma gridCells_8 : gridCells 0 0 8 =
    [((-8/111 : ℝ), (-8/111 : ℝ)), ((-8/111 : ℝ), (7/111 : ℝ)),
      ((7/111 : ℝ), (-8/111 : ℝ)), ((7/111 : ℝ), (7/111 : ℝ))] := by
  have hrange : pythonRange (-8) (8 + 1) 15 = [-8, 7] := by decide
  unfold gridCells
  rw [hrange, rad_zero, Real.cos_zero]
  norm_num

/-- Radicand of the first cell `(-8/111, -8/111)` against `siteC8`: the
latitudes agree, leaving a pure longitude term. -/
lemma radicand_c0 : radicand (-8/111) (-8/111) (-8/111) (-1) =
    Real.cos (8*π/19980) ^ 2 * Real.sin (103*π/39960) ^ 2 := by
  unfold radicand rad
  have e1 : ((-8/111 : ℝ) * π / 180 - (-8/111) * π / 180) / 2 = 0 := by ring
  have e2 : ((-1 : ℝ) * π / 180 - (-8/111) * π / 180) / 2 = -(103*π/39960) := by ring
  have e3 : ((-8/111 : ℝ) * π / 180) = -(8*π/19980) := by ring
  rw [e1, e2, e3, Real.sin_zero, Real.sin_neg, Real.cos_neg]
  ring

/-- Radicand of the second cell `(-8/111, 7/111)` against `siteC8`. -/
lemma radicand_c1 : radicand (-8/111) (7/111) (-8/111) (-1) =
    Real.cos (8*π/19980) ^ 2 * Real.sin (118*π/39960) ^ 2 := by
  unfold radicand rad
  have e1 : ((-8/111 : ℝ) * π / 180 - (-8/111) * π / 180) / 2 = 0 := by ring
  have e2 : ((-1 : ℝ) * π / 180 - (7/111) * π / 180) / 2 = -(118*π/39960) := by ring
  have e3 : ((-8/111 : ℝ) * π / 180) = -(8*π/19980) := by ring
  rw [e1, e2, e3, Real.sin_zero, Real.sin_neg, Real.cos_neg]
  ring

lemma cos_theta_pos : (0.9 : ℝ) < Real.cos (8*π/19980) := by
  have hb := @Real.one_sub_sq_div_two_le_cos (8*π/19980)
  have hπ1 : (3.14:ℝ) < π := Real.pi_gt_d2
  have hπ2 : π < 3.15 := Real.pi_lt_d2
  nlinarith

lemma sin_u0_bounds :
    (0.008 : ℝ) < Real.sin (103*π/39960) ∧ (0 : ℝ) < Real.sin (103*π/39960) := by
  have hπ1 : (3.14:ℝ) < π := Real.pi_gt_d2
  have hπ2 : π < 3.15 := Real.pi_lt_d2
  have hu_lb : (0.00809:ℝ) < 103*π/39960 := by nlinarith
  have hu_ub : (103*π/39960:ℝ) < 0.00812 := by nlinarith
  have hu_pos : (0:ℝ) < 103*π/39960 := by linarith
  have hs := Real.sin_gt_sub_cube hu_pos (by linarith)
  have hcube : (103*π/39960:ℝ)^3 < 0.00812^3 :=
    pow_lt_pow_left₀ hu_ub (le_of_lt hu_pos) (by norm_num)
  constructor
  · nlinarith
  · exact Real.sin_pos_of_pos_of_lt_pi hu_pos (by nlinarith)

lemma sin_u1_bounds :
    (0.009 : ℝ) < Real.sin (118*π/39960) ∧ (0 : ℝ) < Real.sin (118*π/39960) := by
  have hπ1 : (3.14:ℝ) < π := Real.pi_gt_d2
  have hπ2 : π < 3.15 := Real.pi_lt_d2
  have hu_lb : (0.00927:ℝ) < 118*π/39960 := by nlinarith
  have hu_ub : (118*π/39960:ℝ) < 0.00931 := by nlinarith
  have hu_pos : (0:ℝ) < 118*π/39960 := by linarith
  have hs := Real.sin_gt_sub_cube hu_pos (by linarith)
  have hcube : (118*π/39960:ℝ)^3 < 0.00931^3 :=
    pow_lt_pow_left₀ hu_ub (le_of_lt hu_pos) (by norm_num)
  constructor
  · nlinarith
  · exact Real.sin_pos_of_pos_of_lt_pi hu_pos (by nlinarith)

/-- Distance from the first grid cell to `siteC8` exceeds 8 km. -/
lemma d_c0_gt_8 : haversine_np (-8/111) (-8/111) (-8/111) (-1) > 8 := by
  have hge := haversine_ge_sqrt (-8/111) (-8/111) (-8/111) (-1)
  obtain ⟨hs_lb, hs_pos⟩ := sin_u0_bounds
  have hc_pos : (0:ℝ) < Real.cos (8*π/19980) := lt_trans (by norm_num) cos_theta_pos
  have hsqrt : Real.sqrt (radicand (-8/111) (-8/111) (-8/111) (-1)) =
      Real.cos (8*π/19980) * Real.sin (103*π/39960) := by
    rw [radicand_c0, Real.sqrt_mul (sq_nonneg _), Real.sqrt_sq_eq_abs,
      Real.sqrt_sq_eq_abs, abs_of_nonneg (le_of_lt hc_pos),
      abs_of_nonneg (le_of_lt hs_pos)]
  rw [hsqrt] at hge
  have hprod := mul_lt_mul'' cos_theta_pos hs_lb (by norm_num) (by norm_num)
  have hR : R = (6371:ℝ) := rfl
  rw [hR] at hge
  nlinarith

/-- Distance from the second grid cell to `siteC8` exceeds 8 km. -/
lemma d_c1_gt_8 : haversine_np (-8/111) (7/111) (-8/111) (-1) > 8 := by
  have hge := haversine_ge_sqrt (-8/111) (7/111) (-8/111) (-1)
  obtain ⟨hs_lb, hs_pos⟩ := sin_u1_bounds
  have hc_pos : (0:ℝ) < Real.cos (8*π/19980) := lt_trans (by norm_num) cos_theta_pos
  have hsqrt : Real.sqrt (radicand (-8/111) (7/111) (-8/111) (-1)) =
      Real.cos (8*π/19980) * Real.sin (118*π/39960) := by
    rw [radicand_c1, Real.sqrt_mul (sq_nonneg _), Real.sqrt_sq_eq_abs,
      Real.sqrt_sq_eq_abs, abs_of_nonneg (le_of_lt hc_pos),
      abs_of_nonneg (le_of_lt hs_pos)]
  rw [hsqrt] at hge
  have hprod := mul_lt_mul'' cos_theta_pos hs_lb (by norm_num) (by norm_num)
  have hR : R = (6371:ℝ) := rfl
  rw [hR] at hge
  nlinarith

/-- The first-emitted cell is strictly closer to `siteC8` than the second. -/
lemma d_c0_lt_d_c1 : haversine_np (-8/111) (-8/111) (-8/111) (-1) <
    haversine_np (-8/111) (7/111) (-8/111) (-1) := by
  apply haversine_lt_of_radicand_lt
  rw [radicand_c0, radicand_c1]
  have hπ1 : (3.14:ℝ) < π := Real.pi_gt_d2
  have hπ2 : π < 3.15 := Real.pi_lt_d2
  obtain ⟨_, hs0_pos⟩ := sin_u0_bounds
  have hc_pos : (0:ℝ) < Real.cos (8*π/19980) := lt_trans (by norm_num) cos_theta_pos
  have hmono : Real.sin (103*π/39960) < Real.sin (118*π/39960) := by
    apply Real.strictMonoOn_sin (Set.mem_Icc.mpr ⟨by nlinarith, by nlinarith⟩)
      (Set.mem_Icc.mpr ⟨by nlinarith, by nlinarith⟩)
    nlinarith
  have hsq : Real.sin (103*π/39960) ^ 2 < Real.sin (118*π/39960) ^ 2 :=
    pow_lt_pow_left₀ hmono (le_of_lt hs0_pos) (by norm_num)
  exact mul_lt_mul_of_pos_left hsq (pow_pos hc_pos 2)

lemma MIN_SIGNAL_KM_eq : MIN_SIGNAL_KM = (8:ℝ) := rfl

/-- Both leading grid cells pass the gap-scan keep condition. -/
lemma gapKeep_c0 : gapKeep (-8/111 : ℝ) (-8/111 : ℝ) [siteC8] = true := by
  rw [gapKeep_iff]
  refine ⟨by simp, ?_⟩
  intro s hs
  rw [List.mem_singleton] at hs
  subst hs
  rw [MIN_SIGNAL_KM_eq]
  have e : haversine_np (-8/111) (-8/111) siteC8.latitude siteC8.longitude =
      haversine_np (-8/111) (-8/111) (-8/111) (-1) := rfl
  rw [e]
  exact d_c0_gt_8

lemma gapKeep_c1 : gapKeep (-8/111 : ℝ) (7/111 : ℝ) [siteC8] = true := by
  rw [gapKeep_iff]
  refine ⟨by simp, ?_⟩
  intro s hs
  rw [List.mem_singleton] at hs
  subst hs
  rw [MIN_SIGNAL_KM_eq]
  have e : haversine_np (-8/111) (7/111) siteC8.latitude siteC8.longitude =
      haversine_np (-8/111) (7/111) (-8/111) (-1) := rfl
  rw [e]
  exact d_c1_gt_8

/-- C8 counterexample: the emitted gap-candidate sequence is NOT sorted by
descending nearest-site distance (the priority score of the spec, all grid
cells having the same area proxy): the scan emits the closer cell first. -/
theorem claim_C8_counterexample :
    ¬ List.Sorted (· ≥ ·) ((uncovered 0 0 8 [siteC8]).map
      (fun c => minSiteDist c.1 c.2 [siteC8])) := by
  intro hsort
  have hsub_grid : List.Sublist
      [((-8/111 : ℝ), (-8/111 : ℝ)), ((-8/111 : ℝ), (7/111 : ℝ))]
      (gridCells 0 0 8) := by
    rw [gridCells_8]
    exact List.Sublist.cons₂ _ (List.Sublist.cons₂ _ (List.nil_sublist _))
  have hfil := List.Sublist.filter (fun c : ℝ × ℝ => gapKeep c.1 c.2 [siteC8]) hsub_grid
  have hfil2 : List.filter (fun c : ℝ × ℝ => gapKeep c.1 c.2 [siteC8])
      [((-8/111 : ℝ), (-8/111 : ℝ)), ((-8/111 : ℝ), (7/111 : ℝ))] =
      [((-8/111 : ℝ), (-8/111 : ℝ)), ((-8/111 : ℝ), (7/111 : ℝ))] := by
    rw [List.filter_cons, List.filter_cons, List.filter_nil]
    simp only [gapKeep_c0, gapKeep_c1, if_true]
  rw [hfil2] at hfil
  have hsub : List.Sublist
      [((-8/111 : ℝ), (-8/111 : ℝ)), ((-8/111 : ℝ), (7/111 : ℝ))]
      (uncovered 0 0 8 [siteC8]) := hfil
  have hmap := hsub.map (fun c : ℝ × ℝ => minSiteDist c.1 c.2 [siteC8])
  have hpair := List.Pairwise.sublist hmap hsort
  rw [List.map_cons, List.map_cons, List.map_nil] at hpair
  have hrel := List.rel_of_pairwise_cons hpair (List.mem_cons_self _ _)
  have e0 : minSiteDist (-8/111 : ℝ) (-8/111 : ℝ) [siteC8] =
      haversine_np (-8/111) (-8/111) (-8/111) (-1) := rfl
  have e1 : minSiteDist (-8/111 : ℝ) (7/111 : ℝ) [siteC8] =
      haversine_np (-8/111) (7/111) (-8/111) (-1) := rfl
  rw [e0, e1] at hrel
  exact absurd hrel (not_le.2 d_c0_lt_d_c1)

/-- C8 (amended): the gap candidates are emitted in deterministic grid scan
order (an order-preserving sublist of the grid, `dx` then `dy` ascending); no
priority score or rank is computed, and the suggested tower location is the
first candidate in scan order with a radius-derived deployment text. -/
theorem claim_C8 (lat lon : ℝ) (radius_km k : ℤ) (df : List Site) :
    List.Sublist (uncovered lat lon radius_km df) (gridCells lat lon radius_km) ∧
    (∀ c cs, uncovered lat lon radius_km df = c :: cs →
      gapRecommend (uncovered lat lon radius_km df) k =
        some (c, recDeployment k)) := by
  refine ⟨List.filter_sublist _, ?_⟩
  intro c cs h
  rw [h]
  rfl

/-! ### C8 witness development: a radius-5 scan with one uncovered cell -/

/-- Distance from the single radius-5 grid cell to `siteA` exceeds 8 km. -/
lemma d_w_gt_8 : haversine_np (-5/111) (-5/111) 1 0 > 8 := by
  have hge := haversine_ge_sqrt (-5/111) (-5/111) 1 0
  have hπ1 : (3.14:ℝ) < π := Real.pi_gt_d2
  have hπ2 : π < 3.15 := Real.pi_lt_d2
  have hterm : Real.sin (29*π/9990) ^ 2 ≤ radicand (-5/111) (-5/111) 1 0 := by
    unfold radicand rad
    have e1 : ((1:ℝ) * π / 180 - (-5/111) * π / 180) / 2 = 29*π/9990 := by ring
    rw [e1]
    have hcos1 : (0:ℝ) < Real.cos ((-5/111:ℝ) * π / 180) := by
      apply Real.cos_pos_of_mem_Ioo
      exact Set.mem_Ioo.mpr ⟨by nlinarith, by nlinarith⟩
    have hcos2 : (0:ℝ) < Real.cos ((1:ℝ) * π / 180) := by
      apply Real.cos_pos_of_mem_Ioo
      exact Set.mem_Ioo.mpr ⟨by nlinarith, by nlinarith⟩
    nlinarith [sq_nonneg (Real.sin (((0:ℝ) * π / 180 - (-5/111) * π / 180) / 2)),
      mul_pos hcos1 hcos2]
  have hu_lb : (0.00911:ℝ) < 29*π/9990 := by nlinarith
  have hu_ub : (29*π/9990:ℝ) < 0.00915 := by nlinarith
  have hu_pos : (0:ℝ) < 29*π/9990 := by linarith
  have hsin_pos : (0:ℝ) < Real.sin (29*π/9990) :=
    Real.sin_pos_of_pos_of_lt_pi hu_pos (by nlinarith)
  have hs := Real.sin_gt_sub_cube hu_pos (by linarith)
  have hcube : (29*π/9990:ℝ)^3 < 0.00915^3 :=
    pow_lt_pow_left₀ hu_ub (le_of_lt hu_pos) (by norm_num)
  have hsin_lb : (0.009:ℝ) < Real.sin (29*π/9990) := by nlinarith
  have hsqrt : Real.sin (29*π/9990) ≤
      Real.sqrt (radicand (-5/111) (-5/111) 1 0) := by
    have h1 : Real.sin (29*π/9990) = Real.sqrt (Real.sin (29*π/9990) ^ 2) :=
      (Real.sqrt_sq (le_of_lt hsin_pos)).symm
    rw [h1]
    exact Real.sqrt_le_sqrt hterm
  have hR : R = (6371:ℝ) := rfl
  rw [hR] at hge
  nlinarith

/-- The radius-5 scan at the origin against `siteA` yields exactly one
uncovered cell. -/
lemma uncovered_w_eval : uncovered 0 0 5 [siteA] = [((-5/111 : ℝ), (-5/111 : ℝ))] := by
  have hrange : pythonRange (-5) (5 + 1) 15 = [-5] := by decide
  have hcell : gridCells 0 0 5 = [((-5/111 : ℝ), (-5/111 : ℝ))] := by
    unfold gridCells
    rw [hrange, rad_zero, Real.cos_zero]
    norm_num
  have hkeep : gapKeep (-5/111 : ℝ) (-5/111 : ℝ) [siteA] = true := by
    rw [gapKeep_iff]
    refine ⟨by simp, ?_⟩
    intro s hs
    rw [List.mem_singleton] at hs
    subst hs
    rw [MIN_SIGNAL_KM_eq]
    have e : haversine_np (-5/111) (-5/111) siteA.latitude siteA.longitude =
        haversine_np (-5/111) (-5/111) 1 0 := rfl
    rw [e]
    exact d_w_gt_8
  unfold uncovered
  rw [hcell, List.filter_cons, List.filter_nil]
  simp only [hkeep, if_true]

/-- C8 witness: the concrete radius-5 scan, its single candidate, and the
resulting recommendation. -/
theorem claim_C8_witness :
    uncovered 0 0 5 [siteA] = [((-5/111 : ℝ), (-5/111 : ℝ))] ∧
    gapRecommend (uncovered 0 0 5 [siteA]) 5 =
      some (((-5/111 : ℝ), (-5/111 : ℝ)), "4G (Urban high-capacity)") := by
  refine ⟨uncovered_w_eval, ?_⟩
  have h := (claim_C8 0 0 5 5 [siteA]).2 ((-5/111 : ℝ), (-5/111 : ℝ)) []
    uncovered_w_eval
  rw [h]
  rfl

end NigeriaCoverage
